import Mathlib

/-!
Shallow embedding of the token analytics provider
(`src/providers/token.ts`, class `TokenProvider`) and proofs about it.

Modelling conventions:
  * JavaScript numeric values (both raw `number`s and `BigNumber`s) are
    modelled as rationals (`ℚ`); `BigNumber` arithmetic on decimal inputs
    is exact, so `ℚ` is faithful for the multiplication, addition,
    division and comparison operations the code performs.
  * Times are epoch milliseconds, modelled as `Nat` and passed explicitly
    (the code reads `Date.now()`).
  * Fallible effects (`async` methods that can reject) are modelled with
    `Except String`; the outcome of each network transport is passed in
    explicitly as an oracle/environment value.
  * Thrown JavaScript errors are `Except.error` with the thrown message.
-/

/-- Mirror of the `PROVIDER_CONFIG` constant object (token.ts lines 19-33).
The nested `TOKEN_ADDRESSES` record is omitted: no embedded function reads it. -/
structure ProviderConfig where
  BIRDEYE_API : String
  MAX_RETRIES : Nat
  RETRY_DELAY : Nat
  DEFAULT_RPC : String
  TOKEN_SECURITY_ENDPOINT : String
  TOKEN_TRADE_DATA_ENDPOINT : String
  DEX_SCREENER_API : String

/-- The concrete configuration values from token.ts lines 19-33. -/
def PROVIDER_CONFIG : ProviderConfig :=
  { BIRDEYE_API := "https://public-api.birdeye.so"
    MAX_RETRIES := 3
    RETRY_DELAY := 2000
    DEFAULT_RPC := "https://api.mainnet-beta.solana.com"
    TOKEN_SECURITY_ENDPOINT := "/defi/token_security?address="
    TOKEN_TRADE_DATA_ENDPOINT := "/defi/v3/token/trade-data/single?address="
    DEX_SCREENER_API := "https://api.dexscreener.com/latest/dex/tokens/" }

/-- `TokenSecurityData` (fields copied in token.ts lines 168-175). -/
structure TokenSecurityData where
  ownerBalance : ℚ
  creatorBalance : ℚ
  ownerPercentage : ℚ
  creatorPercentage : ℚ
  top10HolderBalance : ℚ
  top10HolderPercent : ℚ

/-- `TokenTradeData`, restricted to the fields the embedded functions read
(the source record, token.ts lines 211-402, copies ~170 fields verbatim from
the upstream payload; the ones never read again are omitted).  The six
`unique_wallet_*_change_percent` windows are `Option ℚ` because the upstream
may deliver `null`/absent values, which `analyzeHolderDistribution` filters. -/
structure TokenTradeData where
  price : ℚ
  volume_24h_usd : ℚ
  holder : ℚ
  unique_wallet_24h : ℚ
  price_change_24h_percent : ℚ
  price_change_12h_percent : ℚ
  unique_wallet_30m_change_percent : Option ℚ
  unique_wallet_1h_change_percent : Option ℚ
  unique_wallet_2h_change_percent : Option ℚ
  unique_wallet_4h_change_percent : Option ℚ
  unique_wallet_8h_change_percent : Option ℚ
  unique_wallet_24h_change_percent : Option ℚ

/-- `pair.boosts` sub-object of a DexScreener pair (read at token.ts lines 658-659, 736). -/
structure PairBoosts where
  active : Nat

/-- `pair.volume` sub-object (read at token.ts line 735). -/
structure PairVolume where
  h24 : ℚ

/-- `pair.liquidity` sub-object (read at token.ts line 737). -/
structure PairLiquidity where
  usd : ℚ

/-- `DexScreenerPair`, restricted to the fields the embedded functions read
(token.ts lines 730-737).  `boosts` is optional: the code guards it with
`pair.boosts && ...`. -/
structure DexScreenerPair where
  dexId : String
  url : String
  priceUsd : ℚ
  volume : PairVolume
  boosts : Option PairBoosts
  liquidity : PairLiquidity

/-- `DexScreenerData` (token.ts lines 428-431). -/
structure DexScreenerData where
  schemaVersion : String
  pairs : List DexScreenerPair

/-- `HolderData` entries materialized from the aggregation map
(token.ts lines 557-562).  The source stores `balance.toString()`; the
numeric value is kept here as the rational it denotes. -/
structure HolderData where
  address : String
  balance : ℚ

/-- Element type of `filterHighValueHolders`'s result (token.ts lines 590-595).
`balanceUsd` is the `toFixed(2)` string, as in the source. -/
structure HighValueHolder where
  holderAddress : String
  balanceUsd : String
deriving DecidableEq

/-- `ProcessedTokenData` as assembled in token.ts lines 662-672. -/
structure ProcessedTokenData where
  security : TokenSecurityData
  tradeData : TokenTradeData
  holderDistributionTrend : String
  highValueHolders : List HighValueHolder
  recentTrades : Bool
  highSupplyHoldersCount : Nat
  dexScreenerData : DexScreenerData
  isDexScreenerListed : Bool
  isDexScreenerPaid : Bool

/-- Boolean success test on `Except`, used to state which sub-fetch failures abort. -/
def isOkB : Except ε α → Bool
  | Except.ok _ => true
  | Except.error _ => false

/- ===================== Two-tier cache (token.ts lines 36-102) ===================== -/

/-- State of the two cache tiers for one provider: the in-memory `NodeCache`
(`this.cache`) and the per-key file store (`this.cacheDir`).  Each entry is a
value paired with its expiry time in epoch milliseconds; the file tier stores
exactly `expiry = Date.now() + 300000` (token.ts line 72). -/
structure CacheState (V : Type) where
  memory : String → Option (V × Nat)
  file : String → Option (V × Nat)

/-- Modelled from the spec: the in-memory tier is the external `node-cache`
dependency (`new NodeCache({ stdTTL: 300 })`, token.ts line 43), whose source
is not part of this repository.  Per the spec it is a key→value map with a
per-key TTL of 300 s: an entry set at time `t` is served strictly before
`t + 300000` ms and reported absent afterwards. -/
def nodeCacheGet (s : CacheState V) (now : Nat) (key : String) : Option V :=
  match s.memory key with
  | some entry => if now < entry.2 then some entry.1 else none
  | none => none

/-- Modelled from the spec: `NodeCache.set` under `stdTTL: 300` stores the
value with expiry 300 s from the time of the `set` call. -/
def nodeCacheSet (mem : String → Option (V × Nat)) (now : Nat) (key : String)
    (value : V) : String → Option (V × Nat) :=
  fun k => if k = key then some (value, now + 300000) else mem k

/-- `readCacheFromFile` (token.ts lines 50-66): if a file entry exists and
`now < parsed.expiry`, return its data; an expired entry is deleted
(`fs.unlinkSync`) and the read reports absent. -/
def readCacheFromFile (s : CacheState V) (now : Nat) (cacheKey : String) :
    Option V × CacheState V :=
  match s.file cacheKey with
  | some parsed =>
      if now < parsed.2 then (some parsed.1, s)
      else (none, { s with file := fun k => if k = cacheKey then none else s.file k })
  | none => (none, s)

/-- `writeCacheToFile` (token.ts lines 68-76): stores
`\x7b data, expiry: Date.now() + 300000 \x7d` under the key's file. -/
def writeCacheToFile (s : CacheState V) (now : Nat) (cacheKey : String) (data : V) :
    CacheState V :=
  { s with file := fun k => if k = cacheKey then some (data, now + 300000) else s.file k }

/-- `getCachedData` (token.ts lines 78-94): memory tier first; on miss, the
file tier; a file hit is promoted into the memory tier (`this.cache.set`,
which re-arms the 300 s memory TTL from the time of promotion). -/
def getCachedData (s : CacheState V) (now : Nat) (cacheKey : String) :
    Option V × CacheState V :=
  match nodeCacheGet s now cacheKey with
  | some cachedData => (some cachedData, s)
  | none =>
      match readCacheFromFile s now cacheKey with
      | (some fileCachedData, s1) =>
          (some fileCachedData,
            { s1 with memory := nodeCacheSet s1.memory now cacheKey fileCachedData })
      | (none, s1) => (none, s1)

/-- `setCachedData` (token.ts lines 96-102): writes both tiers. -/
def setCachedData (s : CacheState V) (now : Nat) (cacheKey : String) (data : V) :
    CacheState V :=
  writeCacheToFile { s with memory := nodeCacheSet s.memory now cacheKey data }
    now cacheKey data

/-- Constructing a new `TokenProvider` (token.ts lines 39-48, and line 767:
the provider builds a fresh instance per report request) creates a fresh
`NodeCache` while the file tier (`__dirname/cache`) is shared. -/
def newTokenProviderCache (s : CacheState V) : CacheState V :=
  { memory := fun _ => none, file := s.file }

/-- A cache with no entries in either tier. -/
def emptyCache : CacheState V :=
  { memory := fun _ => none, file := fun _ => none }

/-- Thread a sequence of `getCachedData` reads of one key through the state. -/
def applyGets (s : CacheState V) (key : String) (ts : List Nat) : CacheState V :=
  ts.foldl (fun s t => (getCachedData s t key).2) s

/- ===================== Resilient fetcher (token.ts lines 104-149) ===================== -/

/-- Observable outcome of one `fetchWithRetry` call: the returned/thrown
value, the number of attempts performed, and the sequence of backoff delays
awaited (ms).  The error component is an `Option` because the final
`throw lastError` would throw the still-undefined `lastError` if the loop
never ran (impossible with `MAX_RETRIES = 3`, but part of the code's shape). -/
structure RetryResult (E A : Type) where
  result : Except (Option E) A
  attempts : Nat
  delays : List Nat

/-- Loop body of `fetchWithRetry` (token.ts lines 110-145), iterating over the
remaining loop indices of `for (let i = 0; i < MAX_RETRIES; i++)`.  `oracle i`
is the outcome of attempt `i` (the `fetch`, the `response.ok` check and the
`response.json()` together: any of their failures lands in the `catch`).
A delay of `RETRY_DELAY * 2 ^ i` is awaited only when `i < MAX_RETRIES - 1`. -/
def fetchWithRetryLoop (oracle : Nat → Except E A) :
    List Nat → Option E → List Nat → Nat → RetryResult E A
  | [], lastError, delays, attempts => ⟨Except.error lastError, attempts, delays⟩
  | i :: rest, _, delays, attempts =>
      match oracle i with
      | Except.ok data => ⟨Except.ok data, attempts + 1, delays⟩
      | Except.error e =>
          if i < PROVIDER_CONFIG.MAX_RETRIES - 1 then
            fetchWithRetryLoop oracle rest (some e)
              (delays ++ [PROVIDER_CONFIG.RETRY_DELAY * 2 ^ i]) (attempts + 1)
          else
            fetchWithRetryLoop oracle rest (some e) delays (attempts + 1)

/-- `fetchWithRetry` (token.ts lines 104-149). -/
def fetchWithRetry (oracle : Nat → Except E A) : RetryResult E A :=
  fetchWithRetryLoop oracle (List.range PROVIDER_CONFIG.MAX_RETRIES) none [] 0

/- ===================== Trade data fetch (token.ts lines 182-405) ===================== -/

/-- Shape of the Birdeye trade-data response body after `res.json()`:
`success` flag and an optional `data` payload.  The field-by-field copy at
token.ts lines 211-402 is the identity on the fields modelled here. -/
structure TradeApiResponse where
  success : Bool
  data : Option TokenTradeData

/-- Cold-cache body of `fetchTokenTradeData` (token.ts lines 192-404).
`transport` is the outcome of `fetch(url, options).then(res => res.json())`:
`none` models a rejected promise, whose error the `.catch` swallows into
`console.error`, leaving `data` undefined.  The guard
`if (!data?.success || !data?.data) throw ...` then raises the fixed
data-shape error.  The second component counts HTTP requests issued: the
method calls plain `fetch` exactly once (it does not use `fetchWithRetry`). -/
def fetchTokenTradeData (transport : Option TradeApiResponse) :
    Except String TokenTradeData × Nat :=
  match transport with
  | none => (Except.error "No token trade data available", 1)
  | some d =>
      match d.success, d.data with
      | true, some tradeData => (Except.ok tradeData, 1)
      | _, _ => (Except.error "No token trade data available", 1)

/- ===================== DexScreener fetch (token.ts lines 407-444) ===================== -/

/-- Cold-cache body of `fetchDexScreenerData` (token.ts lines 415-443).
`dexResult` is the outcome of the try block's fallible part (the `fetch`,
the `json()` parse and the `!data || !data.pairs` shape check together).
The surrounding `catch` (lines 437-443) swallows every error and returns
the fallback value, so the function as a whole cannot fail. -/
def fetchDexScreenerData (dexResult : Except String DexScreenerData) : DexScreenerData :=
  match dexResult with
  | Except.ok dexData => dexData
  | Except.error _ => { schemaVersion := "1.0.0", pairs := [] }

/- ===================== Holder aggregator (token.ts lines 481-574) ===================== -/

/-- One entry of `data.result.token_accounts` (token.ts lines 543-545). -/
structure TokenAccount where
  owner : String
  amount : ℚ

/-- The `allHoldersMap` (`Map<string, number>`, token.ts line 489), modelled
as an insertion-ordered association list, as a JavaScript `Map` is. -/
abbrev AccMap := List (String × ℚ)

/-- `Map.get` / `Map.has`: first (only) binding of the key. -/
def mapGet : AccMap → String → Option ℚ
  | [], _ => none
  | (k, w) :: rest, owner => if k = owner then some w else mapGet rest owner

/-- `Map.set`: overwrite the existing binding in place, else append. -/
def mapSet : AccMap → String → ℚ → AccMap
  | [], owner, v => [(owner, v)]
  | (k, w) :: rest, owner, v =>
      if k = owner then (k, v) :: rest else (k, w) :: mapSet rest owner v

/-- Body of the `forEach` at token.ts lines 543-552: additive merge of one
account into the running map (`has` → `set(get + balance)`, else `set`). -/
def mergeAccount (m : AccMap) (account : TokenAccount) : AccMap :=
  match mapGet m account.owner with
  | some prev => mapSet m account.owner (prev + account.amount)
  | none => mapSet m account.owner account.amount

/-- Merging one page of accounts into the map (the `forEach` loop). -/
def mergePage (m : AccMap) (accounts : List TokenAccount) : AccMap :=
  accounts.foldl mergeAccount m

/-- Sum of the amounts a page holds for one owner address. -/
def pageTotal (a : String) (accounts : List TokenAccount) : ℚ :=
  ((accounts.filter (fun acc => decide (acc.owner = a))).map (fun acc => acc.amount)).sum

/-- Outcome of one page request in `fetchHolderList`: the transport threw
(`fetch`/`json()` rejected, landing in the catch at lines 570-573), or the
response was missing `data`/`result`/`token_accounts` (the break at lines
527-537 treats this like an exhausted listing), or it carried a list of
accounts and an optional next cursor. -/
inductive PageResult where
  | threw
  | malformed
  | accounts (tokenAccounts : List TokenAccount) (cursor : Option String)

/-- Pagination loop of `fetchHolderList` (token.ts lines 498-555), iterating
over the page numbers the `while (true)` loop can reach: `page` starts at 1
and the guard `if (page > 2) break` runs before each fetch, so only pages 1
and 2 are ever requested.  `pages` is the upstream oracle indexed by page
number (the code threads the response cursor into the next request; the
oracle abstracts the cursor chain by page index).  An empty
`token_accounts` list breaks like a malformed response (`length === 0` is
part of the same condition).  A thrown transport error aborts the whole
aggregation with the fixed error of line 572.  The second component counts
page requests issued. -/
def fetchHolderListLoop (pages : Nat → PageResult) :
    List Nat → AccMap → Nat → Except String AccMap × Nat
  | [], acc, requests => (Except.ok acc, requests)
  | page :: rest, acc, requests =>
      match pages page with
      | PageResult.threw =>
          (Except.error "Failed to fetch holder list from Helius.", requests + 1)
      | PageResult.malformed => (Except.ok acc, requests + 1)
      | PageResult.accounts tokenAccounts _cursor =>
          if tokenAccounts.isEmpty then (Except.ok acc, requests + 1)
          else fetchHolderListLoop pages rest (mergePage acc tokenAccounts) (requests + 1)

/-- Cold-cache body of `fetchHolderList` (token.ts lines 489-573): run the
pagination loop from an empty map, then materialize the accumulated map into
the `HolderData` sequence (lines 557-562). -/
def fetchHolderList (pages : Nat → PageResult) : Except String (List HolderData) × Nat :=
  match fetchHolderListLoop pages [1, 2] [] 0 with
  | (Except.ok m, requests) =>
      (Except.ok (m.map (fun p => { address := p.1, balance := p.2 })), requests)
  | (Except.error e, requests) => (Except.error e, requests)

/-- True when a page response makes the loop continue to the next page. -/
def pageContinues : PageResult → Bool
  | PageResult.accounts l _ => !l.isEmpty
  | _ => false

/- ===================== Analytics (token.ts lines 446-621) ===================== -/

/-- `analyzeHolderDistribution` (token.ts lines 446-479): average the
non-null unique-wallet percent-changes of the six windows and classify
against the fixed ±10 thresholds. -/
def analyzeHolderDistribution (tradeData : TokenTradeData) : String :=
  let intervals := [
    ("30m", tradeData.unique_wallet_30m_change_percent),
    ("1h", tradeData.unique_wallet_1h_change_percent),
    ("2h", tradeData.unique_wallet_2h_change_percent),
    ("4h", tradeData.unique_wallet_4h_change_percent),
    ("8h", tradeData.unique_wallet_8h_change_percent),
    ("24h", tradeData.unique_wallet_24h_change_percent)]
  let validChanges := (intervals.map (fun interval => interval.2)).filterMap (fun change => change)
  if validChanges.length = 0 then "stable"
  else
    let averageChange :=
      validChanges.foldl (fun acc curr => acc + curr) 0 / (validChanges.length : ℚ)
    let increaseThreshold := (10 : ℚ)
    let decreaseThreshold := (-10 : ℚ)
    if averageChange > increaseThreshold then "increasing"
    else if averageChange < decreaseThreshold then "decreasing"
    else "stable"

/-- The six windows' present (non-null) percent-change values, used to state
properties of `analyzeHolderDistribution`. -/
def presentChanges (tradeData : TokenTradeData) : List ℚ :=
  [tradeData.unique_wallet_30m_change_percent,
   tradeData.unique_wallet_1h_change_percent,
   tradeData.unique_wallet_2h_change_percent,
   tradeData.unique_wallet_4h_change_percent,
   tradeData.unique_wallet_8h_change_percent,
   tradeData.unique_wallet_24h_change_percent].filterMap id

/-- `BigNumber` rounding mode 4 (`ROUND_HALF_UP`, the default used by
`toFixed`): round half away from zero. -/
def bnRoundHalfUp (q : ℚ) : ℤ :=
  if 0 ≤ q then ⌊q + 1/2⌋ else -⌊-q + 1/2⌋

/-- Pad a digit string on the left with zeros to the given width. -/
def padZeros (width : Nat) (s : String) : String :=
  String.mk (List.replicate (width - s.length) '0') ++ s

/-- `BigNumber.toFixed(dp)`: decimal string with `dp` digits after the
point, rounded half-up. -/
def toFixedString (dp : Nat) (q : ℚ) : String :=
  let scaled := bnRoundHalfUp (q * (10 : ℚ) ^ dp)
  let sign := if scaled < 0 then "-" else ""
  let a := scaled.natAbs
  if dp = 0 then sign ++ toString a
  else sign ++ toString (a / 10 ^ dp) ++ "." ++ padZeros dp (toString (a % 10 ^ dp))

/-- `filterHighValueHolders` (token.ts lines 576-598).  The holder list the
source obtains from `await this.fetchHolderList()` at line 579 is passed in
explicitly (see `getProcessedTokenData`, which binds that fetch's outcome).
A holder is kept iff `balance * price` `isGreaterThan(5)` (strict), and is
rendered with the USD value `toFixed(2)`. -/
def filterHighValueHolders (tradeData : TokenTradeData) (holdersData : List HolderData) :
    List HighValueHolder :=
  let tokenPriceUsd := tradeData.price
  (holdersData.filter (fun holder => decide (holder.balance * tokenPriceUsd > 5))).map
    (fun holder =>
      { holderAddress := holder.address
        balanceUsd := toFixedString 2 (holder.balance * tokenPriceUsd) })

/-- `checkRecentTrades` (token.ts lines 600-602). -/
def checkRecentTrades (tradeData : TokenTradeData) : Bool :=
  decide (tradeData.volume_24h_usd > 0)

/-- `balance.dividedBy(totalSupply).isGreaterThan(0.02)` (token.ts line 614)
with `BigNumber` division semantics: division by zero yields `Infinity`
(`NaN` for `0/0`), and `isGreaterThan` is true only for `+Infinity`, so for
a zero denominator the comparison holds exactly when the numerator is
positive; otherwise it is the exact rational comparison with `0.02 = 1/50`. -/
def bnDivGt002 (balance totalSupply : ℚ) : Bool :=
  if totalSupply = 0 then decide (0 < balance)
  else decide (balance / totalSupply > 1/50)

/- ===================== Orchestration (token.ts lines 604-756) ===================== -/

/-- Environment of one cold-cache report request: the token address and the
outcome of each network interaction the sub-fetches would perform.  The
security fetch's fallible part (its `fetchWithRetry` call plus the
`!data?.success || !data?.data` shape check, token.ts lines 160-166) is
carried as its overall outcome in `securityResult`; the trade and holder
transports are carried at the granularity their claims need. -/
structure FetchEnv where
  tokenAddress : String
  securityResult : Except String TokenSecurityData
  tradeTransport : Option TradeApiResponse
  dexResult : Except String DexScreenerData
  holderPages : Nat → PageResult

/-- `countHighSupplyHolders` (token.ts lines 604-621): the whole body runs in
a `try`; any thrown error — in particular a holder-list fetch failure — is
caught and `0` is returned.  Otherwise it counts the holders whose
`balance.dividedBy(ownerBalance + creatorBalance).isGreaterThan(0.02)`. -/
def countHighSupplyHolders (env : FetchEnv) (securityData : TokenSecurityData) : Nat :=
  let totalSupply := securityData.ownerBalance + securityData.creatorBalance
  match (fetchHolderList env.holderPages).1 with
  | Except.error _ => 0
  | Except.ok highSupplyHolders =>
      (highSupplyHolders.filter (fun holder => bnDivGt002 holder.balance totalSupply)).length

/-- `getProcessedTokenData` (token.ts lines 623-680), cold cache.  The
sub-steps run in source order; the `try`/`catch` at lines 624 and 676-679
rethrows the caught error unchanged, so it is transparent to the `Except`
chain.  `fetchDexScreenerData` is total (its own catch substitutes the
fallback), and the holder list bound here is the one `filterHighValueHolders`
fetches at its line 579; `countHighSupplyHolders` re-runs `fetchHolderList`
against the same environment (in the source that second call is served by the
cache written by the first). -/
def getProcessedTokenData (env : FetchEnv) : Except String ProcessedTokenData := do
  let security ← env.securityResult
  let tradeData ← (fetchTokenTradeData env.tradeTransport).1
  let dexData := fetchDexScreenerData env.dexResult
  let holderDistributionTrend := analyzeHolderDistribution tradeData
  let holdersData ← (fetchHolderList env.holderPages).1
  let highValueHolders := filterHighValueHolders tradeData holdersData
  let recentTrades := checkRecentTrades tradeData
  let highSupplyHoldersCount := countHighSupplyHolders env security
  let isDexScreenerListed := decide (dexData.pairs.length > 0)
  let isDexScreenerPaid := dexData.pairs.any (fun pair =>
    match pair.boosts with
    | some boosts => decide (boosts.active > 0)
    | none => false)
  pure {
    security := security
    tradeData := tradeData
    holderDistributionTrend := holderDistributionTrend
    highValueHolders := highValueHolders
    recentTrades := recentTrades
    highSupplyHoldersCount := highSupplyHoldersCount
    dexScreenerData := dexData
    isDexScreenerListed := isDexScreenerListed
    isDexScreenerPaid := isDexScreenerPaid }

/-- Rendering of a raw JavaScript number into a template literal.  The exact
JS digit string is abstracted by the rational's canonical rendering; no
theorem below depends on its shape. -/
def numToString (q : ℚ) : String := toString q

/-- `formatTokenData` (token.ts lines 682-744): deterministic concatenation
of the labeled report sections. -/
def formatTokenData (tokenAddress : String) (data : ProcessedTokenData) : String :=
  let output := "**Token Security and Trade Report**\n"
  let output := output ++ "Token Address: " ++ tokenAddress ++ "\n\n"
  let output := output ++ "**Ownership Distribution:**\n"
  let output := output ++ "- Owner Balance: " ++ numToString data.security.ownerBalance ++ "\n"
  let output := output ++ "- Creator Balance: " ++ numToString data.security.creatorBalance ++ "\n"
  let output := output ++ "- Owner Percentage: " ++ numToString data.security.ownerPercentage ++ "%\n"
  let output := output ++ "- Creator Percentage: " ++ numToString data.security.creatorPercentage ++ "%\n"
  let output := output ++ "- Top 10 Holders Balance: " ++ numToString data.security.top10HolderBalance ++ "\n"
  let output := output ++ "- Top 10 Holders Percentage: " ++ numToString data.security.top10HolderPercent ++ "%\n\n"
  let output := output ++ "**Trade Data:**\n"
  let output := output ++ "- Holders: " ++ numToString data.tradeData.holder ++ "\n"
  let output := output ++ "- Unique Wallets (24h): " ++ numToString data.tradeData.unique_wallet_24h ++ "\n"
  let output := output ++ "- Price Change (24h): " ++ numToString data.tradeData.price_change_24h_percent ++ "%\n"
  let output := output ++ "- Price Change (12h): " ++ numToString data.tradeData.price_change_12h_percent ++ "%\n"
  let output := output ++ "- Volume (24h USD): $" ++ toFixedString 2 data.tradeData.volume_24h_usd ++ "\n"
  let output := output ++ "- Current Price: $" ++ toFixedString 2 data.tradeData.price ++ "\n\n"
  let output := output ++ "**Holder Distribution Trend:** " ++ data.holderDistributionTrend ++ "\n\n"
  let output := output ++ "**High-Value Holders (>$5 USD):**\n"
  let output := output ++
    (if data.highValueHolders.length = 0 then
      "- No high-value holders found or data not available.\n"
    else
      (data.highValueHolders.map (fun holder =>
        "- " ++ holder.holderAddress ++ ": $" ++ holder.balanceUsd ++ "\n")).foldl
        (fun a b => a ++ b) "")
  let output := output ++ "\n"
  let output := output ++ "**Recent Trades (Last 24h):** " ++
    (if data.recentTrades then "Yes" else "No") ++ "\n\n"
  let output := output ++ "**Holders with >2% Supply:** " ++
    toString data.highSupplyHoldersCount ++ "\n\n"
  let output := output ++ "**DexScreener Listing:** " ++
    (if data.isDexScreenerListed then "Yes" else "No") ++ "\n"
  let output := output ++
    (if data.isDexScreenerListed then
      "- Listing Type: " ++ (if data.isDexScreenerPaid then "Paid" else "Free") ++ "\n" ++
      "- Number of DexPairs: " ++ toString data.dexScreenerData.pairs.length ++ "\n\n" ++
      "**DexScreener Pairs:**\n" ++
      (data.dexScreenerData.pairs.enum.map (fun pair =>
        "\n**Pair " ++ toString (pair.1 + 1) ++ ":**\n" ++
        "- DEX: " ++ pair.2.dexId ++ "\n" ++
        "- URL: " ++ pair.2.url ++ "\n" ++
        "- Price USD: $" ++ toFixedString 6 pair.2.priceUsd ++ "\n" ++
        "- Volume (24h USD): $" ++ toFixedString 2 pair.2.volume.h24 ++ "\n" ++
        "- Boosts Active: " ++
          (match pair.2.boosts with
           | some boosts => toString boosts.active
           | none => "undefined") ++ "\n" ++
        "- Liquidity USD: $" ++ toFixedString 2 pair.2.liquidity.usd ++ "\n")).foldl
        (fun a b => a ++ b) ""
    else "")
  output ++ "\n"

/-- `getFormattedTokenReport` (token.ts lines 746-755): the single
user-visible boundary.  Every error thrown inside the `try` — by
`getProcessedTokenData` or by `formatTokenData` (total in this embedding,
since its JS counterpart's possible throws are swallowed by the same
`catch`) — degrades to the fixed apology string. -/
def getFormattedTokenReport (env : FetchEnv) : String :=
  match getProcessedTokenData env with
  | Except.ok processedData => formatTokenData env.tokenAddress processedData
  | Except.error _ => "Unable to fetch token information. Please try again later."

/- ===================== Concrete fixtures for closed evaluations ===================== -/

/-- A benign trade-data fixture: price 2 USD, positive 24h volume, all six
unique-wallet windows null. -/
def td0 : TokenTradeData :=
  { price := 2
    volume_24h_usd := 1
    holder := 100
    unique_wallet_24h := 50
    price_change_24h_percent := 0
    price_change_12h_percent := 0
    unique_wallet_30m_change_percent := none
    unique_wallet_1h_change_percent := none
    unique_wallet_2h_change_percent := none
    unique_wallet_4h_change_percent := none
    unique_wallet_8h_change_percent := none
    unique_wallet_24h_change_percent := none }

/-- Trade data whose only present window change is +11%. -/
def tdIncreasing : TokenTradeData :=
  { td0 with unique_wallet_30m_change_percent := some 11 }

/-- Security-data fixture with `ownerBalance = 100`, `creatorBalance = 50`. -/
def sec0 : TokenSecurityData :=
  { ownerBalance := 100
    creatorBalance := 50
    ownerPercentage := 0
    creatorPercentage := 0
    top10HolderBalance := 0
    top10HolderPercent := 0 }

/-- Environment in which the security, trade and holder fetches all succeed
but the DexScreener fetch fails. -/
def envC1Dex : FetchEnv :=
  { tokenAddress := "2weMjPLLybRMMva1fM3U31goWWrCpF59CHWNhnCJ9Vyh"
    securityResult := Except.ok sec0
    tradeTransport := some { success := true, data := some td0 }
    dexResult := Except.error "No DexScreener data available"
    holderPages := fun _ => PageResult.malformed }

/-- Environment whose holder-list transport always throws. -/
def envThrew : FetchEnv :=
  { envC1Dex with holderPages := fun _ => PageResult.threw }

/-- Environment whose holder listing has one page with a single account
(`addr1`, balance 5). -/
def envHolders1 : FetchEnv :=
  { envC1Dex with
    holderPages := fun n =>
      if n = 1 then PageResult.accounts [{ owner := "addr1", amount := 5 }] none
      else PageResult.malformed }

/-- A holder-account upstream that always returns a non-empty page with a cursor. -/
def pagesAlways : Nat → PageResult :=
  fun _ => PageResult.accounts [{ owner := "addr1", amount := 1 }] (some "cursor")

/-- Cache state after a value was stored at time 0 under key `"k"`. -/
def cacheAfterSet : CacheState Nat := setCachedData emptyCache 0 "k" 7

/-- The same persistent store seen by a freshly constructed provider
(new empty `NodeCache`, shared cache directory). -/
def cacheAfterRestart : CacheState Nat := newTokenProviderCache cacheAfterSet

/- ===================== Helper lemmas ===================== -/

/-- Left fold of addition over rationals computes the sum. -/
theorem foldl_add_eq_sum (l : List ℚ) (a : ℚ) :
    l.foldl (fun acc curr => acc + curr) a = a + l.sum := by
  induction l generalizing a with
  | nil => simp
  | cons x xs ih => simp [ih, add_assoc]

/-- `mapGet` after `mapSet` reads the new binding at the written key and is
unchanged elsewhere. -/
theorem mapGet_mapSet (m : AccMap) (o : String) (v : ℚ) (a : String) :
    mapGet (mapSet m o v) a = if a = o then some v else mapGet m a := by
  induction m with
  | nil =>
      by_cases h : a = o
      · simp [mapSet, mapGet, h]
      · have h2 : ¬ o = a := fun hh => h hh.symm
        simp [mapSet, mapGet, h, h2]
  | cons p rest ih =>
      rcases p with ⟨k, w⟩
      by_cases hk : k = o
      · by_cases ha : a = o
        · have hka : k = a := by rw [hk, ha]
          simp [mapSet, mapGet, hk, ha, hka]
        · have h2 : ¬ k = a := fun hh => ha (by rw [← hh, hk])
          have h3 : ¬ o = a := fun hh => ha hh.symm
          simp [mapSet, mapGet, hk, ha, h2, h3]
      · by_cases hka : k = a
        · have hao : ¬ a = o := fun hh => hk (by rw [hka, hh])
          simp [mapSet, mapGet, hk, hka, hao]
        · simp [mapSet, mapGet, hk, hka, ih]

/-- Reading the merge of one account: additive at the account's owner,
untouched elsewhere. -/
theorem mergeAccount_get (m : AccMap) (acc : TokenAccount) (a : String) :
    mapGet (mergeAccount m acc) a =
      if a = acc.owner then some ((mapGet m acc.owner).getD 0 + acc.amount)
      else mapGet m a := by
  unfold mergeAccount
  cases h : mapGet m acc.owner <;> simp [mapGet_mapSet, h]

/-- A page with no account for the address contributes nothing to its total. -/
theorem pageTotal_of_not_any (a : String) (P : List TokenAccount)
    (h : P.any (fun acc => decide (acc.owner = a)) = false) : pageTotal a P = 0 := by
  have hfil : P.filter (fun acc => decide (acc.owner = a)) = [] := by
    rw [List.filter_eq_nil_iff]
    intro x hx
    have := List.any_eq_false.mp h x hx
    simpa using this
  simp [pageTotal, hfil]

/-- Page totals are additive over page concatenation. -/
theorem pageTotal_append (a : String) (A B : List TokenAccount) :
    pageTotal a (A ++ B) = pageTotal a A + pageTotal a B := by
  simp [pageTotal, List.filter_append]

/-- The page total of a cons whose head belongs to the address. -/
theorem pageTotal_cons_self (a : String) (acc : TokenAccount) (rest : List TokenAccount)
    (h : acc.owner = a) : pageTotal a (acc :: rest) = acc.amount + pageTotal a rest := by
  simp [pageTotal, List.filter_cons, h]

/-- The page total of a cons whose head belongs to another address. -/
theorem pageTotal_cons_other (a : String) (acc : TokenAccount) (rest : List TokenAccount)
    (h : ¬ acc.owner = a) : pageTotal a (acc :: rest) = pageTotal a rest := by
  simp [pageTotal, List.filter_cons, h]

/-- Reading the map after merging a whole page. -/
theorem mergePage_get (P : List TokenAccount) (m : AccMap) (a : String) :
    mapGet (mergePage m P) a =
      if P.any (fun acc => decide (acc.owner = a)) then
        some ((mapGet m a).getD 0 + pageTotal a P)
      else mapGet m a := by
  induction P generalizing m with
  | nil => simp [mergePage, pageTotal]
  | cons acc rest ih =>
      have hstep : mergePage m (acc :: rest) = mergePage (mergeAccount m acc) rest := by
        simp [mergePage]
      rw [hstep, ih, mergeAccount_get]
      by_cases ho : acc.owner = a
      · rw [pageTotal_cons_self a acc rest ho]
        cases hr : rest.any (fun x => decide (x.owner = a)) with
        | true => simp [ho, hr, add_assoc]
        | false =>
            have h0 : pageTotal a rest = 0 := pageTotal_of_not_any a rest hr
            simp [ho, hr, h0]
      · have ho2 : ¬ a = acc.owner := fun hh => ho hh.symm
        rw [pageTotal_cons_other a acc rest ho]
        cases hr : rest.any (fun x => decide (x.owner = a)) with
        | true => simp [ho, ho2, hr]
        | false => simp [ho, ho2, hr]

/-- The two cache entries for a key keep their original expiry across any
sequence of same-key reads in one provider instance: a read either hits the
unexpired memory entry (no state change), or misses memory after expiry, in
which case the file entry — holding the same expiry — is also expired, so the
read deletes it at most and never promotes. -/
theorem cache_entry_inv (key : String) (v : V) (e : Nat) (ts : List Nat)
    (s : CacheState V) (hm : s.memory key = some (v, e))
    (hf : s.file key = some (v, e) ∨ s.file key = none) :
    (applyGets s key ts).memory key = some (v, e) ∧
      ((applyGets s key ts).file key = some (v, e) ∨
        (applyGets s key ts).file key = none) := by
  induction ts generalizing s with
  | nil => exact ⟨hm, hf⟩
  | cons t rest ih =>
      have hstep : applyGets s key (t :: rest) =
          applyGets (getCachedData s t key).2 key rest := by
        simp [applyGets]
      rw [hstep]
      by_cases ht : t < e
      · have hmem : nodeCacheGet s t key = some v := by
          simp [nodeCacheGet, hm, ht]
        have hs2 : (getCachedData s t key).2 = s := by
          simp [getCachedData, hmem]
        rw [hs2]
        exact ih s hm hf
      · have hmem : nodeCacheGet s t key = none := by
          simp [nodeCacheGet, hm, ht]
        rcases hf with hf | hf
        · have hread : readCacheFromFile s t key =
              (none, { s with file := fun k => if k = key then none else s.file k }) := by
            simp [readCacheFromFile, hf, ht]
          have hs2 : (getCachedData s t key).2 =
              { s with file := fun k => if k = key then none else s.file k } := by
            simp [getCachedData, hmem, hread]
          rw [hs2]
          exact ih _ hm (Or.inr (by simp))
        · have hread : readCacheFromFile s t key = (none, s) := by
            simp [readCacheFromFile, hf]
          have hs2 : (getCachedData s t key).2 = s := by
            simp [getCachedData, hmem, hread]
          rw [hs2]
          exact ih s hm (Or.inr hf)

/-- A single read against a state satisfying the entry invariant returns the
value exactly when the read time is before the stored expiry. -/
theorem getCachedData_of_inv (key : String) (v : V) (e : Nat) (s : CacheState V)
    (hm : s.memory key = some (v, e))
    (hf : s.file key = some (v, e) ∨ s.file key = none) (t : Nat) :
    (getCachedData s t key).1 = if t < e then some v else none := by
  by_cases ht : t < e
  · have hmem : nodeCacheGet s t key = some v := by simp [nodeCacheGet, hm, ht]
    simp [getCachedData, hmem, ht]
  · have hmem : nodeCacheGet s t key = none := by simp [nodeCacheGet, hm, ht]
    rcases hf with hf | hf
    · simp [getCachedData, hmem, readCacheFromFile, hf, ht]
    · simp [getCachedData, hmem, readCacheFromFile, hf, ht]

/-- `analyzeHolderDistribution` restated over the list of present changes and
their arithmetic mean. -/
theorem analyzeHolderDistribution_mean_form (td : TokenTradeData) :
    analyzeHolderDistribution td =
      (if presentChanges td = [] then "stable"
       else if (presentChanges td).sum / ((presentChanges td).length : ℚ) > 10 then
         "increasing"
       else if (presentChanges td).sum / ((presentChanges td).length : ℚ) < -10 then
         "decreasing"
       else "stable") := by
  have hdef : analyzeHolderDistribution td =
      (if (presentChanges td).length = 0 then "stable"
       else if (presentChanges td).foldl (fun acc curr => acc + curr) 0 /
           ((presentChanges td).length : ℚ) > 10 then "increasing"
       else if (presentChanges td).foldl (fun acc curr => acc + curr) 0 /
           ((presentChanges td).length : ℚ) < -10 then "decreasing"
       else "stable") := rfl
  rw [hdef]
  rcases eq_or_ne (presentChanges td) [] with h | h
  · simp [h]
  · have hlen0 : ¬ (presentChanges td).length = 0 := by
      simpa [List.length_eq_zero] using h
    simp only [foldl_add_eq_sum, zero_add]
    simp [h, hlen0]

/- ===================== Claim theorems ===================== -/

/-- C1 (amended): in `getProcessedTokenData`, a failure of the security
fetch, the trade fetch or the holder-list fetch propagates and aborts the
composite — it succeeds exactly when those three succeed — while a failure
of the DexScreener fetch never aborts: `fetchDexScreenerData` swallows it
and substitutes the fallback `schemaVersion "1.0.0"` / empty-pairs value. -/
theorem getProcessedTokenData_propagation (env : FetchEnv) :
    isOkB (getProcessedTokenData env)
        = (isOkB env.securityResult &&
           (isOkB (fetchTokenTradeData env.tradeTransport).1 &&
            isOkB (fetchHolderList env.holderPages).1)) ∧
    ∀ msg : String,
      fetchDexScreenerData (Except.error msg) = { schemaVersion := "1.0.0", pairs := [] } := by
  constructor
  · cases hsec : env.securityResult with
    | error e =>
        simp [getProcessedTokenData, hsec, isOkB, Bind.bind, Except.bind,
          Functor.map, Except.map]
    | ok sec =>
        cases htr : (fetchTokenTradeData env.tradeTransport).1 with
        | error e =>
            simp [getProcessedTokenData, hsec, htr, isOkB, Bind.bind, Except.bind,
              Functor.map, Except.map]
        | ok td =>
            cases hh : (fetchHolderList env.holderPages).1 with
            | error e =>
                simp [getProcessedTokenData, hsec, htr, hh, isOkB, Bind.bind,
                  Except.bind, Functor.map, Except.map]
            | ok hs =>
                simp [getProcessedTokenData, hsec, htr, hh, isOkB, Bind.bind,
                  Except.bind, Functor.map, Except.map, Pure.pure, Except.pure]
  · intro msg
    rfl

/-- C1 counterexample: in an environment where the security, trade and
holder fetches succeed but the DexScreener fetch fails, `getProcessedTokenData`
still produces a composite report — the DexScreener failure does not
propagate, contradicting the claim as stated. -/
theorem getProcessedTokenData_dex_failure_no_abort :
    envC1Dex.dexResult = Except.error "No DexScreener data available" ∧
    isOkB (getProcessedTokenData envC1Dex) = true := by
  exact ⟨rfl, rfl⟩

/-- C2: `getFormattedTokenReport` is total; when processing succeeds it
returns `formatTokenData` of the processed data, and on any internal failure
it returns exactly the fixed apology string. -/
theorem getFormattedTokenReport_boundary (env : FetchEnv) :
    (∃ d, getProcessedTokenData env = Except.ok d ∧
      getFormattedTokenReport env = formatTokenData env.tokenAddress d) ∨
    (isOkB (getProcessedTokenData env) = false ∧
      getFormattedTokenReport env =
        "Unable to fetch token information. Please try again later.") := by
  cases h : getProcessedTokenData env with
  | ok d => exact Or.inl ⟨d, rfl, by simp [getFormattedTokenReport, h]⟩
  | error e => exact Or.inr ⟨by simp [isOkB, h], by simp [getFormattedTokenReport, h]⟩

/-- C3: when every attempt fails, `fetchWithRetry` performs exactly 3
attempts, awaits the backoff delays 2000 ms and 4000 ms (before attempts 2
and 3; none after the last), and throws the error of the last attempt. -/
theorem fetchWithRetry_exhaustion {E A : Type} (oracle : Nat → Except E A)
    (err : Nat → E)
    (h : ∀ i, i < PROVIDER_CONFIG.MAX_RETRIES → oracle i = Except.error (err i)) :
    (fetchWithRetry oracle).result = Except.error (some (err 2)) ∧
    (fetchWithRetry oracle).attempts = 3 ∧
    (fetchWithRetry oracle).delays = [2000, 4000] := by
  have h0 := h 0 (by norm_num [PROVIDER_CONFIG])
  have h1 := h 1 (by norm_num [PROVIDER_CONFIG])
  have h2 := h 2 (by norm_num [PROVIDER_CONFIG])
  have hrange : List.range PROVIDER_CONFIG.MAX_RETRIES = [0, 1, 2] := rfl
  refine ⟨?_, ?_, ?_⟩ <;>
    simp [fetchWithRetry, hrange, fetchWithRetryLoop, h0, h1, h2, PROVIDER_CONFIG]

/-- C3 witness: a concrete always-failing oracle exercises the exhaustion
theorem; the attempt indices themselves serve as the errors, so the raised
error 2 is visibly the last attempt's. -/
theorem fetchWithRetry_exhaustion_witness :
    (fetchWithRetry (fun i => (Except.error i : Except Nat Unit))).result
        = Except.error (some 2) ∧
    (fetchWithRetry (fun i => (Except.error i : Except Nat Unit))).attempts = 3 ∧
    (fetchWithRetry (fun i => (Except.error i : Except Nat Unit))).delays = [2000, 4000] :=
  fetchWithRetry_exhaustion (fun i => Except.error i) (fun i => i) (fun _ _ => rfl)

/-- C4 (amended): within a single provider instance, a value stored at time
`T` is returned unchanged by every read before `T + 300000` ms and reported
absent by every read at or after `T + 300000`, whatever same-key reads
happen in between. -/
theorem getCachedData_ttl_single_instance (V : Type) (s0 : CacheState V) (T : Nat)
    (key : String) (v : V) (ts : List Nat) (t : Nat) :
    (getCachedData (applyGets (setCachedData s0 T key v) key ts) t key).1
      = if t < T + 300000 then some v else none := by
  have hm : (setCachedData s0 T key v).memory key = some (v, T + 300000) := by
    simp [setCachedData, writeCacheToFile, nodeCacheSet]
  have hf : (setCachedData s0 T key v).file key = some (v, T + 300000) ∨
      (setCachedData s0 T key v).file key = none := by
    left
    simp [setCachedData, writeCacheToFile]
  obtain ⟨hm2, hf2⟩ := cache_entry_inv key v (T + 300000) ts _ hm hf
  exact getCachedData_of_inv key v (T + 300000) _ hm2 hf2 t

/-- C4 counterexample: store 7 under `"k"` at time 0; a freshly constructed
provider (empty memory tier, shared file store) reads at 200000 ms, which
promotes the value into its memory cache with a new 300 s TTL; a read at
400000 ms — at which the persisted expiry 300000 has passed — still returns
the value, contradicting the claim that every read at `T + 300000` or later
reports absent. -/
theorem getCachedData_false_hit_after_promotion :
    (getCachedData (getCachedData cacheAfterRestart 200000 "k").2 400000 "k").1
        = some 7 ∧
    0 + 300000 ≤ 400000 := by
  exact ⟨rfl, by norm_num⟩

/-- C5 (amended): `fetchTokenTradeData` issues exactly one HTTP request —
it uses plain `fetch`, not the resilient `fetchWithRetry` — and when the
transport fails the error is swallowed into an undefined payload, which then
surfaces as the data-shape error `"No token trade data available"`. -/
theorem fetchTokenTradeData_single_request (transport : Option TradeApiResponse) :
    (fetchTokenTradeData transport).2 = 1 ∧
    (transport = none →
      (fetchTokenTradeData transport).1 = Except.error "No token trade data available") := by
  constructor
  · rcases transport with _ | ⟨s, d⟩
    · rfl
    · cases s <;> cases d <;> rfl
  · rintro rfl
    rfl

/-- C5 witness: the always-failing transport exercises both conjuncts. -/
theorem fetchTokenTradeData_single_request_witness :
    (fetchTokenTradeData none).2 = 1 ∧
    (fetchTokenTradeData none).1 = Except.error "No token trade data available" :=
  ⟨(fetchTokenTradeData_single_request none).1,
   (fetchTokenTradeData_single_request none).2 rfl⟩

/-- C5 counterexample: with an always-failing transport the method performs
one attempt, not the claimed 3 retry attempts, and the surfaced error is the
data-shape message rather than a transport error. -/
theorem fetchTokenTradeData_no_retry :
    (fetchTokenTradeData none).2 = 1 ∧
    (fetchTokenTradeData none).2 ≠ PROVIDER_CONFIG.MAX_RETRIES ∧
    (fetchTokenTradeData none).1 = Except.error "No token trade data available" := by
  refine ⟨rfl, ?_, rfl⟩
  norm_num [fetchTokenTradeData, PROVIDER_CONFIG]

/-- C6: `analyzeHolderDistribution` filters out the null window changes,
returns `"stable"` when none remain, and otherwise classifies the arithmetic
mean of the remaining values with strict thresholds: mean > 10 is
`"increasing"`, mean < -10 is `"decreasing"`, and any mean in [-10, 10] —
the endpoints included — is `"stable"`. -/
theorem analyzeHolderDistribution_classification (td : TokenTradeData) :
    (presentChanges td = [] → analyzeHolderDistribution td = "stable") ∧
    (presentChanges td ≠ [] →
      ((presentChanges td).sum / ((presentChanges td).length : ℚ) > 10 →
        analyzeHolderDistribution td = "increasing") ∧
      ((presentChanges td).sum / ((presentChanges td).length : ℚ) < -10 →
        analyzeHolderDistribution td = "decreasing") ∧
      (-10 ≤ (presentChanges td).sum / ((presentChanges td).length : ℚ) ∧
          (presentChanges td).sum / ((presentChanges td).length : ℚ) ≤ 10 →
        analyzeHolderDistribution td = "stable")) := by
  rw [analyzeHolderDistribution_mean_form]
  constructor
  · intro h
    simp [h]
  · intro h
    refine ⟨?_, ?_, ?_⟩
    · intro hgt
      simp [h, hgt]
    · intro hlt
      have hngt : ¬ (presentChanges td).sum / ((presentChanges td).length : ℚ) > 10 := by
        intro hgt
        linarith
      simp [h, hngt, hlt]
    · rintro ⟨hge, hle⟩
      have hngt : ¬ (presentChanges td).sum / ((presentChanges td).length : ℚ) > 10 := by
        intro hgt
        linarith
      have hnlt : ¬ (presentChanges td).sum / ((presentChanges td).length : ℚ) < -10 := by
        intro hlt
        linarith
      simp [h, hngt, hnlt]

/-- C6 witness: a single present window change of +11 classifies as increasing. -/
theorem analyzeHolderDistribution_classification_witness :
    analyzeHolderDistribution tdIncreasing = "increasing" :=
  ((analyzeHolderDistribution_classification tdIncreasing).2 (by
      simp [presentChanges, tdIncreasing, td0])).1 (by
      norm_num [presentChanges, tdIncreasing, td0, List.filterMap_cons,
        List.filterMap_nil])

/-- C7: `filterHighValueHolders` keeps exactly the holders whose balance
times the current price strictly exceeds 5 USD (so a product of exactly 5.00
is excluded), and each kept holder is returned as its address paired with the
USD value rendered `toFixed(2)`. -/
theorem filterHighValueHolders_strict_threshold (tradeData : TokenTradeData)
    (holdersData : List HolderData) :
    filterHighValueHolders tradeData holdersData
        = (holdersData.filter (fun h => decide (5 < h.balance * tradeData.price))).map
            (fun h =>
              { holderAddress := h.address
                balanceUsd := toFixedString 2 (h.balance * tradeData.price) }) ∧
    (∀ entry ∈ filterHighValueHolders tradeData holdersData,
      ∃ h ∈ holdersData, 5 < h.balance * tradeData.price ∧
        entry = { holderAddress := h.address
                  balanceUsd := toFixedString 2 (h.balance * tradeData.price) }) ∧
    (∀ h ∈ holdersData, 5 < h.balance * tradeData.price →
      { holderAddress := h.address
        balanceUsd := toFixedString 2 (h.balance * tradeData.price) }
          ∈ filterHighValueHolders tradeData holdersData) := by
  refine ⟨rfl, ?_, ?_⟩
  · intro entry hentry
    simp only [filterHighValueHolders, List.mem_map, List.mem_filter,
      decide_eq_true_eq] at hentry
    obtain ⟨h, ⟨hmem, hgt⟩, hentryEq⟩ := hentry
    exact ⟨h, hmem, hgt, hentryEq.symm⟩
  · intro h hmem hgt
    simp only [filterHighValueHolders, List.mem_map, List.mem_filter,
      decide_eq_true_eq]
    exact ⟨h, ⟨hmem, hgt⟩, rfl⟩

/-- C7 witness: with price 2 USD, a holder of balance 10 (product 20 USD) is
kept and rendered as `"20.00"`. -/
theorem filterHighValueHolders_strict_threshold_witness :
    toFixedString 2 ((10 : ℚ) * 2) = "20.00" ∧
    { holderAddress := "addr1", balanceUsd := toFixedString 2 ((10 : ℚ) * 2) } ∈
      filterHighValueHolders td0 [{ address := "addr1", balance := 10 }] := by
  constructor
  · have h1 : bnRoundHalfUp ((10 : ℚ) * 2 * (10 : ℚ) ^ 2) = 2000 := by
      norm_num [bnRoundHalfUp]
    simp only [toFixedString, h1]
    norm_num [padZeros]
    decide
  · exact (filterHighValueHolders_strict_threshold td0
        [{ address := "addr1", balance := 10 }]).2.2
      { address := "addr1", balance := 10 } (by simp) (by norm_num [td0])

/-- C8: merging two pages of holder accounts in either order yields the same
address→balance mapping, and each address maps to the sum of all its account
amounts across both pages. -/
theorem holderMerge_page_order_irrelevant (A B : List TokenAccount) (a : String) :
    mapGet (mergePage (mergePage ([] : AccMap) A) B) a
        = mapGet (mergePage (mergePage ([] : AccMap) B) A) a ∧
    mapGet (mergePage (mergePage ([] : AccMap) A) B) a
        = (if (A ++ B).any (fun acc => decide (acc.owner = a)) then
            some (pageTotal a (A ++ B))
          else none) := by
  have hA : mapGet (mergePage ([] : AccMap) A) a =
      if A.any (fun acc => decide (acc.owner = a)) then some (pageTotal a A) else none := by
    rw [mergePage_get]
    simp [mapGet]
  have hB : mapGet (mergePage ([] : AccMap) B) a =
      if B.any (fun acc => decide (acc.owner = a)) then some (pageTotal a B) else none := by
    rw [mergePage_get]
    simp [mapGet]
  have hAB := mergePage_get B (mergePage ([] : AccMap) A) a
  have hBA := mergePage_get A (mergePage ([] : AccMap) B) a
  rw [hA] at hAB
  rw [hB] at hBA
  constructor
  · rw [hAB, hBA]
    cases ha : A.any (fun acc => decide (acc.owner = a)) with
    | false =>
        cases hb : B.any (fun acc => decide (acc.owner = a)) with
        | false => simp [ha, hb]
        | true => simp [ha, hb]
    | true =>
        cases hb : B.any (fun acc => decide (acc.owner = a)) with
        | false => simp [ha, hb]
        | true => simp [ha, hb, add_comm]
  · rw [hAB]
    cases ha : A.any (fun acc => decide (acc.owner = a)) with
    | false =>
        cases hb : B.any (fun acc => decide (acc.owner = a)) with
        | false => simp [ha, hb, List.any_append]
        | true =>
            have h0 : pageTotal a A = 0 := pageTotal_of_not_any a A ha
            simp [ha, hb, List.any_append, pageTotal_append, h0]
    | true =>
        cases hb : B.any (fun acc => decide (acc.owner = a)) with
        | false =>
            have h0 : pageTotal a B = 0 := pageTotal_of_not_any a B hb
            simp [ha, hb, List.any_append, pageTotal_append, h0]
        | true => simp [ha, hb, List.any_append, pageTotal_append]

/-- C9: for every upstream behaviour, the pagination loop of
`fetchHolderList` terminates with at most 2 page requests — exactly 1 when
the first response is absent, malformed or empty, and exactly 2 otherwise
(the hard page cap) — and on success the accumulated map is materialized
into the `HolderData` sequence. -/
theorem fetchHolderList_page_cap (pages : Nat → PageResult) :
    (fetchHolderList pages).2 = (if pageContinues (pages 1) then 2 else 1) ∧
    (fetchHolderList pages).2 ≤ 2 ∧
    (∀ m r, fetchHolderListLoop pages [1, 2] [] 0 = (Except.ok m, r) →
      (fetchHolderList pages).1 =
        Except.ok (m.map (fun p => { address := p.1, balance := p.2 }))) := by
  have hreq : (fetchHolderList pages).2 = (if pageContinues (pages 1) then 2 else 1) := by
    rcases h1 : pages 1 with _ | _ | ⟨l1, c1⟩
    · simp [fetchHolderList, fetchHolderListLoop, h1, pageContinues]
    · simp [fetchHolderList, fetchHolderListLoop, h1, pageContinues]
    · cases l1 with
      | nil => simp [fetchHolderList, fetchHolderListLoop, h1, pageContinues]
      | cons x xs =>
          rcases h2 : pages 2 with _ | _ | ⟨l2, c2⟩
          · simp [fetchHolderList, fetchHolderListLoop, h1, h2, pageContinues]
          · simp [fetchHolderList, fetchHolderListLoop, h1, h2, pageContinues]
          · cases l2 with
            | nil => simp [fetchHolderList, fetchHolderListLoop, h1, h2, pageContinues]
            | cons y ys => simp [fetchHolderList, fetchHolderListLoop, h1, h2, pageContinues]
  refine ⟨hreq, ?_, ?_⟩
  · rw [hreq]
    split <;> norm_num
  · intro m r hm
    simp [fetchHolderList, hm]

/-- C9 witness: an upstream that always answers with a non-empty page and a
cursor is stopped by the page cap after exactly 2 requests, and the two
pages' amounts for `addr1` are merged additively into the materialized list. -/
theorem fetchHolderList_page_cap_witness :
    (fetchHolderList pagesAlways).2 = 2 ∧
    (fetchHolderList pagesAlways).1 = Except.ok [{ address := "addr1", balance := 2 }] := by
  constructor
  · have h := (fetchHolderList_page_cap pagesAlways).1
    simpa [pagesAlways, pageContinues] using h
  · have hloop : fetchHolderListLoop pagesAlways [1, 2] [] 0
        = (Except.ok [("addr1", 2)], 2) := by
      norm_num [fetchHolderListLoop, pagesAlways, mergePage, mergeAccount, mapGet, mapSet]
    have h := (fetchHolderList_page_cap pagesAlways).2.2 [("addr1", 2)] 2 hloop
    simpa using h

/-- C10: `countHighSupplyHolders` is total — a holder-list fetch failure is
caught and turned into the count 0 — and on a successful fetch with nonzero
`ownerBalance + creatorBalance` it returns the count of holders whose balance
divided by that total supply strictly exceeds 0.02. -/
theorem countHighSupplyHolders_error_handling (env : FetchEnv)
    (securityData : TokenSecurityData) :
    (isOkB (fetchHolderList env.holderPages).1 = false →
      countHighSupplyHolders env securityData = 0) ∧
    (∀ hs, (fetchHolderList env.holderPages).1 = Except.ok hs →
      securityData.ownerBalance + securityData.creatorBalance ≠ 0 →
      countHighSupplyHolders env securityData =
        (hs.filter (fun holder =>
          decide (holder.balance /
            (securityData.ownerBalance + securityData.creatorBalance) > 1/50))).length) := by
  constructor
  · intro h
    unfold countHighSupplyHolders
    cases hh : (fetchHolderList env.holderPages).1 with
    | ok hs =>
        rw [hh] at h
        simp [isOkB] at h
    | error e => simp
  · intro hs hok hsup
    have hval : countHighSupplyHolders env securityData =
        (hs.filter (fun holder => bnDivGt002 holder.balance
          (securityData.ownerBalance + securityData.creatorBalance))).length := by
      unfold countHighSupplyHolders
      rw [hok]
    have hfun : (fun (holder : HolderData) => bnDivGt002 holder.balance
          (securityData.ownerBalance + securityData.creatorBalance))
        = (fun holder => decide (holder.balance /
            (securityData.ownerBalance + securityData.creatorBalance) > 1/50)) := by
      funext holder
      simp [bnDivGt002, hsup]
    rw [hval, hfun]

/-- C10 witness: a thrown holder fetch yields 0; with owner balance 100,
creator balance 50 and a single holder of balance 5, the share 5/150 exceeds
2% and the count is 1. -/
theorem countHighSupplyHolders_error_handling_witness :
    countHighSupplyHolders envThrew sec0 = 0 ∧
    countHighSupplyHolders envHolders1 sec0 = 1 := by
  constructor
  · exact (countHighSupplyHolders_error_handling envThrew sec0).1 rfl
  · have hok : (fetchHolderList envHolders1.holderPages).1
        = Except.ok [{ address := "addr1", balance := 5 }] := by
      norm_num [fetchHolderList, fetchHolderListLoop, envHolders1, envC1Dex,
        mergePage, mergeAccount, mapGet, mapSet]
    have h := (countHighSupplyHolders_error_handling envHolders1 sec0).2
      [{ address := "addr1", balance := 5 }] hok (by norm_num [sec0])
    rw [h]
    norm_num [sec0]
